import Mathlib

/-!
Shallow embedding of `train_model` from `src/multilabel/train.py`
(processing-advertisements repository).

The training loop consumes opaque collaborators (model, optimizer, scheduler,
criterion, data loaders).  The embedding represents their observable behaviour:

* a `Batch` carries the batch size `inputs.size(0)`, the model output tensor
  produced on that batch, the auxiliary output (used only in the
  inception/train code path) and the label tensor;
* an `Env P` packages, per epoch and phase, the batches the data loader
  yields together with the model outputs on them, the reported dataset sizes
  `len(dataloaders[phase].dataset)` (constant across epochs, as the loader
  object is fixed), the criterion, the initial `model.state_dict()` and the
  state dict the model holds at the point of each epoch's validation-phase
  checkpoint (`copy.deepcopy(model.state_dict())`, line 140);
* Python floats are modelled by `ℚ`; Python exceptions (`ZeroDivisionError`
  from `running_loss / len(dataset)` on an empty dataset, the
  `AttributeError` from `running_corrects.double()` when the loader yielded
  zero batches so that `running_corrects` is still the int 0, `ValueError`
  from `np.concatenate` on an empty list) are modelled by `Except String`;
* `torch`'s element-wise `==` broadcasts size-1 dimensions, which
  `countMatches` reproduces via `broadcastPair`.

Invocations of the opaque optimizer / scheduler / criterion are counted so
that "collaborator never invoked" facts are statable.
-/

namespace MultilabelTrain

/-- A 2-D tensor: one inner list of per-class rational scores per sample. -/
abbrev Tensor2 : Type := List (List ℚ)

/-- The loss function `criterion(outputs, labels)`, an opaque collaborator
returning a scalar. -/
abbrev Criterion : Type := Tensor2 → Tensor2 → ℚ

/-- The two phases of each epoch: `for phase in ["train", "val"]` (line 45). -/
inductive Phase where
  | train : Phase
  | val : Phase
  deriving DecidableEq, Repr

/-- One `(inputs, labels)` pair yielded by `dataloaders[phase]`, together with
the observable behaviour of the opaque model on it: `inputsSize` is
`inputs.size(0)`; `outputs` is the primary model output; `auxOutputs` is the
auxiliary output the model yields in the inception/train code path. -/
structure Batch where
  inputsSize : ℕ
  outputs : Tensor2
  auxOutputs : Tensor2
  labels : Tensor2
  deriving DecidableEq, Repr

/-- First in-place masked assignment `preds[preds >= 0.5] = 1` (line 102). -/
def maskGe (t : Tensor2) : Tensor2 :=
  t.map (List.map (fun x => if (1 : ℚ)/2 ≤ x then 1 else x))

/-- Second in-place masked assignment `preds[preds < 0.5] = 0` (line 103). -/
def maskLt (t : Tensor2) : Tensor2 :=
  t.map (List.map (fun x => if x < (1 : ℚ)/2 then 0 else x))

/-- Prediction derivation, lines 101-103: `preds = torch.clone(outputs)`
followed by the two masked assignments.  The clone is modelled by working on
an immutable value, so the raw output tensor is unmodified by construction. -/
def derivePreds (outputs : Tensor2) : Tensor2 :=
  maskLt (maskGe outputs)

/-- Pairing of two tensor dimensions under torch broadcasting: equal sizes
pair positionally, a size-1 side is repeated against every element of the
other, and incompatible sizes (where torch raises a RuntimeError) yield no
pairs — no claim relies on that region. -/
def broadcastPair {α β : Type} (xs : List α) (ys : List β) : List (α × β) :=
  if xs.length = ys.length then xs.zip ys
  else if xs.length = 1 then (ys.map (fun y => xs.map (fun x => (x, y)))).flatten
  else if ys.length = 1 then (xs.map (fun x => ys.map (fun y => (x, y)))).flatten
  else []

/-- Number of positions of one broadcast row pair where prediction and label
agree. -/
def rowMatches (p l : List ℚ) : ℕ :=
  ((broadcastPair p l).filter (fun q => q.1 = q.2)).length

/-- `torch.sum(preds == labels.data)` (line 114): the element-wise count of
matching positions over the whole batch.  `==` broadcasts: a size-1
dimension of either tensor is compared against every index of the other, so
e.g. a width-1 label row against a width-3 prediction row contributes up to
3 matches. -/
def countMatches (preds labels : Tensor2) : ℕ :=
  ((broadcastPair preds labels).map (fun pl => rowMatches pl.1 pl.2)).sum

/-- Per-batch loss (lines 78-98): in the inception/train code path the loss is
`criterion(outputs, labels) + 0.4 * criterion(aux_outputs, labels)`
(0.4 = 2/5); in every other case it is `criterion(outputs, labels)`. -/
def batchLoss (isInception : Bool) (phase : Phase) (criterion : Criterion)
    (b : Batch) : ℚ :=
  if isInception ∧ phase = Phase.train then
    criterion b.outputs b.labels + (2 : ℚ)/5 * criterion b.auxOutputs b.labels
  else
    criterion b.outputs b.labels

/-- How many times `criterion` is called on one batch (twice in the
inception/train code path, lines 87-88, once otherwise, line 98). -/
def batchCriterionCalls (isInception : Bool) (phase : Phase) : ℕ :=
  if isInception ∧ phase = Phase.train then 2 else 1

/-- The per-phase accumulators of the batch loop: `running_loss` (line 51),
`running_corrects` (line 52), `outputs_batch` and `targets_batch`
(lines 56-57). -/
structure PhaseAcc where
  runningLoss : ℚ
  runningCorrects : ℕ
  outputsBatch : List Tensor2
  targetsBatch : List Tensor2
  deriving DecidableEq, Repr

/-- One iteration of the batch loop (lines 60-118): compute the loss, derive
predictions, then `running_loss += curr_loss * inputs.size(0)`,
`running_corrects += torch.sum(preds == labels.data)`, and append predictions
and labels to the accumulation lists. -/
def stepBatch (isInception : Bool) (phase : Phase) (criterion : Criterion)
    (acc : PhaseAcc) (b : Batch) : PhaseAcc :=
  let loss := batchLoss isInception phase criterion b
  let preds := derivePreds b.outputs
  { runningLoss := acc.runningLoss + loss * (b.inputsSize : ℚ)
    runningCorrects := acc.runningCorrects + countMatches preds b.labels
    outputsBatch := acc.outputsBatch ++ [preds]
    targetsBatch := acc.targetsBatch ++ [b.labels] }

/-- The whole batch loop of one phase, starting from zeroed accumulators. -/
def runPhase (isInception : Bool) (phase : Phase) (criterion : Criterion)
    (batches : List Batch) : PhaseAcc :=
  batches.foldl (stepBatch isInception phase criterion) ⟨0, 0, [], []⟩

/-- Epoch-level statistics (lines 126-129):
`epoch_loss = running_loss / len(dataloaders[phase].dataset)` and
`epoch_acc = running_corrects / (len(dataloaders[phase].dataset) * num_classes)`.
The first division is on Python floats and raises `ZeroDivisionError` when
the dataset is empty.  Otherwise, when the loader yielded zero batches, the
`running_corrects += ...` of line 115 never ran, so `running_corrects` is
still the Python int 0 rather than a tensor — equivalently, the
`outputs_batch` accumulation list is still empty — and
`running_corrects.double()` on line 127 raises an `AttributeError`. -/
def epochStats (datasetSize numClasses : ℕ) (pa : PhaseAcc) :
    Except String (ℚ × ℚ) :=
  if datasetSize = 0 then Except.error "ZeroDivisionError"
  else if pa.outputsBatch = [] then
    Except.error "AttributeError: int object has no attribute double"
  else Except.ok (pa.runningLoss / (datasetSize : ℚ),
    (pa.runningCorrects : ℚ) / ((datasetSize * numClasses : ℕ) : ℚ))

/-- `np.concatenate` on a list of 2-D arrays (lines 144-145, 155-156):
concatenates along the first axis and raises `ValueError` on an empty list. -/
def npConcatenate (ts : List Tensor2) : Except String Tensor2 :=
  if ts = [] then Except.error "ValueError: need at least one array to concatenate"
  else Except.ok ts.flatten

/-- One phase's history: the four per-epoch lists `*_acc_history`,
`*_loss_history`, `*_targets_history`, `*_outputs_history` (lines 24-31). -/
structure History where
  acc : List ℚ
  loss : List ℚ
  targets : List Tensor2
  outputs : List Tensor2
  deriving DecidableEq, Repr

/-- The empty history all eight lists start from (lines 24-31). -/
def History.empty : History := ⟨[], [], [], []⟩

/-- The mutable state threaded through the epoch loop: best checkpoint data
(lines 33-35), the retained profile object (line 36), the two histories, and
counters of how often the opaque optimizer, scheduler and criterion
collaborators have been invoked. -/
structure LoopState (P : Type) where
  bestWts : P
  bestLoss : ℚ
  bestAcc : ℚ
  prof : Option Unit
  valHist : History
  trainHist : History
  optimizerSteps : ℕ
  schedulerSteps : ℕ
  criterionCalls : ℕ
  deriving DecidableEq, Repr

/-- The opaque collaborators of one run, observably: the initial
`model.state_dict()`, the state dict deep-copied when epoch `e`'s validation
phase checkpoints (line 140), the batches each loader yields per epoch, the
two reported dataset sizes, and the criterion. -/
structure Env (P : Type) where
  initParams : P
  paramsAt : ℕ → P
  trainBatches : ℕ → List Batch
  valBatches : ℕ → List Batch
  trainDatasetSize : ℕ
  valDatasetSize : ℕ
  criterion : Criterion

/-- `dataloaders[phase]` for epoch `e`. -/
def phaseBatches {P : Type} (env : Env P) (phase : Phase) (e : ℕ) : List Batch :=
  match phase with
  | Phase.train => env.trainBatches e
  | Phase.val => env.valBatches e

/-- `len(dataloaders[phase].dataset)`. -/
def phaseDatasetSize {P : Type} (env : Env P) (phase : Phase) : ℕ :=
  match phase with
  | Phase.train => env.trainDatasetSize
  | Phase.val => env.valDatasetSize

/-- Initial loop state (lines 24-36): `best_model_wts` is a deep copy of the
initial state dict, `best_loss = 10000.0`, `best_acc = 0.0`, `prof = None`,
empty histories, no collaborator yet invoked. -/
def initState {P : Type} (env : Env P) : LoopState P :=
  { bestWts := env.initParams
    bestLoss := 10000
    bestAcc := 0
    prof := none
    valHist := History.empty
    trainHist := History.empty
    optimizerSteps := 0
    schedulerSteps := 0
    criterionCalls := 0 }

/-- One phase of one epoch (lines 45-161): run the batch loop, record the
profile object if profiling is on and at least one batch was profiled, count
the optimizer steps (one per train batch, lines 106-108) and criterion calls,
compute the epoch statistics, update the best checkpoint on the validation
phase when `epoch_loss < best_loss` holds strictly (lines 137-140), then
concatenate the accumulated arrays and append the four entries to the phase's
history (lines 141-161). -/
def processPhase {P : Type} (isInception profilerOn : Bool) (numClasses : ℕ)
    (env : Env P) (epoch : ℕ) (phase : Phase) (st : LoopState P) :
    Except String (LoopState P) :=
  let batches := phaseBatches env phase epoch
  let pa := runPhase isInception phase env.criterion batches
  let st1 : LoopState P :=
    { st with
      prof := if profilerOn ∧ batches ≠ [] then some () else st.prof
      optimizerSteps :=
        st.optimizerSteps + (if phase = Phase.train then batches.length else 0)
      criterionCalls :=
        st.criterionCalls + batches.length * batchCriterionCalls isInception phase }
  match epochStats (phaseDatasetSize env phase) numClasses pa with
  | Except.error msg => Except.error msg
  | Except.ok (epochLoss, epochAcc) =>
    let st2 : LoopState P :=
      if phase = Phase.val ∧ epochLoss < st1.bestLoss then
        { st1 with
          bestLoss := epochLoss
          bestAcc := epochAcc
          bestWts := env.paramsAt epoch }
      else st1
    match npConcatenate pa.outputsBatch, npConcatenate pa.targetsBatch with
    | Except.ok outs, Except.ok tgts =>
      match phase with
      | Phase.val =>
        Except.ok { st2 with valHist :=
          { acc := st2.valHist.acc ++ [epochAcc]
            loss := st2.valHist.loss ++ [epochLoss]
            targets := st2.valHist.targets ++ [tgts]
            outputs := st2.valHist.outputs ++ [outs] } }
      | Phase.train =>
        Except.ok { st2 with trainHist :=
          { acc := st2.trainHist.acc ++ [epochAcc]
            loss := st2.trainHist.loss ++ [epochLoss]
            targets := st2.trainHist.targets ++ [tgts]
            outputs := st2.trainHist.outputs ++ [outs] } }
    | Except.error msg, _ => Except.error msg
    | _, Except.error msg => Except.error msg

/-- One epoch (lines 40-164): the train phase, then the validation phase, then
`scheduler.step()` (line 163). -/
def processEpoch {P : Type} (isInception profilerOn : Bool) (numClasses : ℕ)
    (env : Env P) (epoch : ℕ) (st : LoopState P) :
    Except String (LoopState P) :=
  match processPhase isInception profilerOn numClasses env epoch Phase.train st with
  | Except.error msg => Except.error msg
  | Except.ok st1 =>
    match processPhase isInception profilerOn numClasses env epoch Phase.val st1 with
    | Except.error msg => Except.error msg
    | Except.ok st2 => Except.ok { st2 with schedulerSteps := st2.schedulerSteps + 1 }

/-- The epoch loop `for epoch in range(num_epochs)` (line 40), starting at
epoch `start` with `k` epochs left to run. -/
def runEpochsAux {P : Type} (isInception profilerOn : Bool) (numClasses : ℕ)
    (env : Env P) : ℕ → ℕ → LoopState P → Except String (LoopState P)
  | _, 0, st => Except.ok st
  | start, k + 1, st =>
    match processEpoch isInception profilerOn numClasses env start st with
    | Except.error msg => Except.error msg
    | Except.ok st1 => runEpochsAux isInception profilerOn numClasses env (start + 1) k st1

/-- What `train_model` returns (lines 166-192): the model after
`model.load_state_dict(best_model_wts)` (line 176), the retained profile
object, the validation and training histories, the final `best_loss` and
`best_acc` reported on lines 172-173, and the collaborator invocation
counters. -/
structure TrainResult (P : Type) where
  modelParams : P
  prof : Option Unit
  valHist : History
  trainHist : History
  bestLoss : ℚ
  bestAcc : ℚ
  optimizerSteps : ℕ
  schedulerSteps : ℕ
  criterionCalls : ℕ
  deriving DecidableEq, Repr

/-- The whole of `train_model` (lines 9-192).  The `threshold` parameter of
the Python signature (line 20) is accepted here exactly as there: it is never
read by the body. -/
def train_model {P : Type} (env : Env P) (num_epochs num_classes : ℕ)
    (is_inception profiler : Bool) (threshold : ℚ) :
    Except String (TrainResult P) :=
  match runEpochsAux is_inception profiler num_classes env 0 num_epochs (initState env) with
  | Except.error msg => Except.error msg
  | Except.ok st =>
    Except.ok
      { modelParams := st.bestWts
        prof := st.prof
        valHist := st.valHist
        trainHist := st.trainHist
        bestLoss := st.bestLoss
        bestAcc := st.bestAcc
        optimizerSteps := st.optimizerSteps
        schedulerSteps := st.schedulerSteps
        criterionCalls := st.criterionCalls }

/-! ### Derived quantities

Closed-form restatements of the loop's accumulators, proved below to coincide
with what the batch loop computes.  They are used to phrase the theorems. -/

/-- Closed form of `running_loss` after a full phase:
the sum over batches of `curr_loss * inputs.size(0)`. -/
def phaseRunningLoss (isInception : Bool) (phase : Phase) (criterion : Criterion)
    (bs : List Batch) : ℚ :=
  (bs.map (fun b => batchLoss isInception phase criterion b * (b.inputsSize : ℚ))).sum

/-- Closed form of `running_corrects` after a full phase. -/
def phaseCorrects (bs : List Batch) : ℕ :=
  (bs.map (fun b => countMatches (derivePreds b.outputs) b.labels)).sum

/-- The per-batch prediction arrays accumulated in `outputs_batch`. -/
def phasePredsList (bs : List Batch) : List Tensor2 :=
  bs.map (fun b => derivePreds b.outputs)

/-- The per-batch label arrays accumulated in `targets_batch`. -/
def phaseLabelsList (bs : List Batch) : List Tensor2 :=
  bs.map (fun b => b.labels)

/-- The concatenated prediction array appended to the phase history. -/
def phaseOutsConcat (bs : List Batch) : Tensor2 :=
  (phasePredsList bs).flatten

/-- The concatenated label array appended to the phase history. -/
def phaseTgtsConcat (bs : List Batch) : Tensor2 :=
  (phaseLabelsList bs).flatten

/-- The validation `epoch_loss` of epoch `e`. -/
def valEpochLoss {P : Type} (isInception : Bool) (env : Env P) (e : ℕ) : ℚ :=
  phaseRunningLoss isInception Phase.val env.criterion (env.valBatches e) /
    (env.valDatasetSize : ℚ)

/-- The validation `epoch_acc` of epoch `e`. -/
def valEpochAcc {P : Type} (numClasses : ℕ) (env : Env P) (e : ℕ) : ℚ :=
  (phaseCorrects (env.valBatches e) : ℚ) /
    ((env.valDatasetSize * numClasses : ℕ) : ℚ)

/-- The training `epoch_loss` of epoch `e`. -/
def trainEpochLoss {P : Type} (isInception : Bool) (env : Env P) (e : ℕ) : ℚ :=
  phaseRunningLoss isInception Phase.train env.criterion (env.trainBatches e) /
    (env.trainDatasetSize : ℚ)

/-- The training `epoch_acc` of epoch `e`. -/
def trainEpochAcc {P : Type} (numClasses : ℕ) (env : Env P) (e : ℕ) : ℚ :=
  (phaseCorrects (env.trainBatches e) : ℚ) /
    ((env.trainDatasetSize * numClasses : ℕ) : ℚ)

/-- The best-checkpoint update of lines 137-140 on the triple
`(best_loss, best_acc, best_model_wts)`: overwrite exactly when the new
validation loss is strictly smaller. -/
def updateBest {P : Type} (b x : ℚ × ℚ × P) : ℚ × ℚ × P :=
  if x.1 < b.1 then x else b

/-- The best-checkpoint triple held in a loop state. -/
def bestOf {P : Type} (st : LoopState P) : ℚ × ℚ × P :=
  (st.bestLoss, st.bestAcc, st.bestWts)

/-- Folding the best-checkpoint update over a run's validation triples. -/
def trackBest {P : Type} (init : ℚ × ℚ × P) (xs : List (ℚ × ℚ × P)) : ℚ × ℚ × P :=
  xs.foldl updateBest init

/-- Epoch `e`'s validation triple `(epoch_loss, epoch_acc, deep-copied params)`. -/
def valTriple {P : Type} (isInception : Bool) (numClasses : ℕ) (env : Env P)
    (e : ℕ) : ℚ × ℚ × P :=
  (valEpochLoss isInception env e, valEpochAcc numClasses env e, env.paramsAt e)

/-- Pure form of a successful train phase of epoch `e` (no best-checkpoint
change; one optimizer step per batch; history appends). -/
def trainPhaseResult {P : Type} (isInception profilerOn : Bool) (numClasses : ℕ)
    (env : Env P) (e : ℕ) (st : LoopState P) : LoopState P :=
  { st with
    prof := if profilerOn then some () else st.prof
    optimizerSteps := st.optimizerSteps + (env.trainBatches e).length
    criterionCalls := st.criterionCalls +
      (env.trainBatches e).length * batchCriterionCalls isInception Phase.train
    trainHist :=
      { acc := st.trainHist.acc ++ [trainEpochAcc numClasses env e]
        loss := st.trainHist.loss ++ [trainEpochLoss isInception env e]
        targets := st.trainHist.targets ++ [phaseTgtsConcat (env.trainBatches e)]
        outputs := st.trainHist.outputs ++ [phaseOutsConcat (env.trainBatches e)] } }

/-- Pure form of a successful validation phase of epoch `e`: the strict
best-checkpoint update followed by the history appends. -/
def valPhaseResult {P : Type} (isInception profilerOn : Bool) (numClasses : ℕ)
    (env : Env P) (e : ℕ) (st : LoopState P) : LoopState P :=
  let l := valEpochLoss isInception env e
  let a := valEpochAcc numClasses env e
  let st1 : LoopState P :=
    { st with
      prof := if profilerOn then some () else st.prof
      criterionCalls := st.criterionCalls +
        (env.valBatches e).length * batchCriterionCalls isInception Phase.val }
  let st2 : LoopState P :=
    if l < st1.bestLoss then
      { st1 with bestLoss := l, bestAcc := a, bestWts := env.paramsAt e }
    else st1
  { st2 with
    valHist :=
      { acc := st2.valHist.acc ++ [a]
        loss := st2.valHist.loss ++ [l]
        targets := st2.valHist.targets ++ [phaseTgtsConcat (env.valBatches e)]
        outputs := st2.valHist.outputs ++ [phaseOutsConcat (env.valBatches e)] } }

/-- Pure form of a successful epoch: train phase, validation phase, and one
scheduler step. -/
def epochResult {P : Type} (isInception profilerOn : Bool) (numClasses : ℕ)
    (env : Env P) (e : ℕ) (st : LoopState P) : LoopState P :=
  let st2 := valPhaseResult isInception profilerOn numClasses env e
    (trainPhaseResult isInception profilerOn numClasses env e st)
  { st2 with schedulerSteps := st2.schedulerSteps + 1 }

/-- Pure form of a successful run of `k` epochs starting at epoch `start`. -/
def epochsResult {P : Type} (isInception profilerOn : Bool) (numClasses : ℕ)
    (env : Env P) (start k : ℕ) (st : LoopState P) : LoopState P :=
  (List.range' start k).foldl
    (fun s e => epochResult isInception profilerOn numClasses env e s) st

/-- The result record assembled from a final loop state (lines 176-192). -/
def resultOfState {P : Type} (st : LoopState P) : TrainResult P :=
  { modelParams := st.bestWts
    prof := st.prof
    valHist := st.valHist
    trainHist := st.trainHist
    bestLoss := st.bestLoss
    bestAcc := st.bestAcc
    optimizerSteps := st.optimizerSteps
    schedulerSteps := st.schedulerSteps
    criterionCalls := st.criterionCalls }

/-! ### Concrete runs used as counterexamples and witnesses -/

/-- A criterion reading off the top-left entry of the output tensor, used to
drive the validation losses of concrete runs. -/
def critHead : Criterion := fun o _ => (o.headD []).headD 0

/-- Environment realising the spec scenario of validation losses
`[0.9, 0.7, 0.8]` over 3 epochs, with one single-sample batch per phase and
distinguishable parameter snapshots (`paramsAt e = e + 10`, initial `0`). -/
def c1env : Env ℕ :=
  { initParams := 0
    paramsAt := fun e => e + 10
    trainBatches := fun _ => [⟨1, [[0]], [[0]], [[0]]⟩]
    valBatches := fun e =>
      [⟨1, [[if e = 0 then (9 : ℚ)/10 else if e = 1 then 7/10 else 8/10]], [[0]], [[1]]⟩]
    trainDatasetSize := 1
    valDatasetSize := 1
    criterion := critHead }

/-- The result of the 3-epoch scenario run. -/
def c1res : TrainResult ℕ :=
  resultOfState (epochsResult false false 1 c1env 0 3 (initState c1env))

/-- Environment with a single epoch whose validation loss 20000 exceeds the
10000.0 sentinel; its checkpoint snapshot (`paramsAt 0 = 5`) differs from the
initial parameters `0`. -/
def c1cexEnv : Env ℕ :=
  { initParams := 0
    paramsAt := fun e => e + 5
    trainBatches := fun _ => [⟨1, [[0]], [[0]], [[0]]⟩]
    valBatches := fun _ => [⟨1, [[20000]], [[0]], [[1]]⟩]
    trainDatasetSize := 1
    valDatasetSize := 1
    criterion := critHead }

/-- The result of the sentinel-exceeding single-epoch run. -/
def c1cexRes : TrainResult ℕ :=
  resultOfState (epochsResult false false 1 c1cexEnv 0 1 (initState c1cexEnv))

/-- Criterion distinguishing the primary output `[[0]]` (loss 1) from the
auxiliary output (loss 2), for the spec's inception scenario. -/
def c4crit : Criterion := fun o _ => if o = [[0]] then 1 else 2

/-- Batch whose primary output is `[[0]]` and auxiliary output `[[1]]`. -/
def c4batch : Batch := ⟨1, [[0]], [[1]], [[1]]⟩

/-- Constant criterion used by the non-inception witness. -/
def c4critW : Criterion := fun _ _ => 7

/-- Batch used by the non-inception witness. -/
def c4batchW : Batch := ⟨1, [[1]], [[0]], [[1]]⟩

/-- Constant criterion for the epoch-statistics witness. -/
def c5crit : Criterion := fun _ _ => 3

/-- Two-sample batch for the epoch-statistics witness. -/
def c5batch : Batch := ⟨2, [[1, 0], [0, 0]], [[0]], [[1, 1], [0, 1]]⟩

/-- One-epoch environment with two-sample batches for the history-shape
witness. -/
def c7env : Env ℕ :=
  { initParams := 0
    paramsAt := fun _ => 1
    trainBatches := fun _ => [⟨2, [[1], [0]], [[0]], [[1], [1]]⟩]
    valBatches := fun _ => [⟨2, [[0], [1]], [[0]], [[0], [1]]⟩]
    trainDatasetSize := 2
    valDatasetSize := 2
    criterion := critHead }

/-- The result of the history-shape run. -/
def c7res : TrainResult ℕ :=
  resultOfState (epochsResult false false 1 c7env 0 1 (initState c7env))

/-- Environment of the drop_last-style corner: the train loader yields zero
batches while its dataset reports 3 samples (realizable with
`drop_last=True` and a dataset smaller than the batch size). -/
def c8cexEnv : Env ℕ :=
  { initParams := 0
    paramsAt := fun _ => 0
    trainBatches := fun _ => []
    valBatches := fun _ => [⟨1, [[0]], [[0]], [[0]]⟩]
    trainDatasetSize := 3
    valDatasetSize := 1
    criterion := critHead }

/-- Environment whose loaders yield no batches and whose datasets are empty. -/
def c8env : Env ℕ :=
  { initParams := 0
    paramsAt := fun _ => 0
    trainBatches := fun _ => []
    valBatches := fun _ => []
    trainDatasetSize := 0
    valDatasetSize := 0
    criterion := critHead }

/-- Single-epoch environment whose only validation loss 20000 stays at or
above the 10000.0 sentinel. -/
def c9env : Env ℕ :=
  { initParams := 3
    paramsAt := fun e => e + 7
    trainBatches := fun _ => [⟨1, [[0]], [[0]], [[0]]⟩]
    valBatches := fun _ => [⟨1, [[20000]], [[0]], [[1]]⟩]
    trainDatasetSize := 1
    valDatasetSize := 1
    criterion := critHead }

/-- The result of the sentinel run used by the C9 witness. -/
def c9res : TrainResult ℕ :=
  resultOfState (epochsResult false false 1 c9env 0 1 (initState c9env))

/-! ### Lemmas: the batch loop computes the closed-form accumulators -/

theorem foldl_stepBatch (isInception : Bool) (phase : Phase) (criterion : Criterion)
    (bs : List Batch) :
    ∀ acc : PhaseAcc,
      bs.foldl (stepBatch isInception phase criterion) acc =
        ⟨acc.runningLoss + phaseRunningLoss isInception phase criterion bs,
         acc.runningCorrects + phaseCorrects bs,
         acc.outputsBatch ++ phasePredsList bs,
         acc.targetsBatch ++ phaseLabelsList bs⟩ := by
  induction bs with
  | nil =>
    intro acc
    simp [phaseRunningLoss, phaseCorrects, phasePredsList, phaseLabelsList]
  | cons b bs ih =>
    intro acc
    simp only [List.foldl_cons]
    rw [ih]
    simp [stepBatch, phaseRunningLoss, phaseCorrects, phasePredsList,
      phaseLabelsList, add_assoc]

theorem runPhase_eq (isInception : Bool) (phase : Phase) (criterion : Criterion)
    (bs : List Batch) :
    runPhase isInception phase criterion bs =
      ⟨phaseRunningLoss isInception phase criterion bs, phaseCorrects bs,
       phasePredsList bs, phaseLabelsList bs⟩ := by
  rw [runPhase, foldl_stepBatch]
  simp

/-! ### Lemmas: characterizing one phase of the loop -/

theorem processPhase_train_ok {P : Type} (isInception profilerOn : Bool)
    (numClasses : ℕ) (env : Env P) (e : ℕ) (st st' : LoopState P)
    (h : processPhase isInception profilerOn numClasses env e Phase.train st =
      Except.ok st') :
    env.trainDatasetSize ≠ 0 ∧ env.trainBatches e ≠ [] ∧
      st' = trainPhaseResult isInception profilerOn numClasses env e st := by
  by_cases hd : env.trainDatasetSize = 0
  · simp [processPhase, phaseBatches, phaseDatasetSize, epochStats, hd] at h
  · by_cases hb : env.trainBatches e = []
    · simp [processPhase, phaseBatches, phaseDatasetSize, epochStats, hd, hb,
        runPhase_eq, phasePredsList, npConcatenate] at h
    · refine ⟨hd, hb, ?_⟩
      simp only [processPhase, phaseBatches, phaseDatasetSize, epochStats,
        runPhase_eq, npConcatenate, hd, hb, if_false, if_neg hd,
        phasePredsList, phaseLabelsList, List.map_eq_nil_iff] at h
      simp only [Except.ok.injEq] at h
      subst h
      simp [trainPhaseResult, trainEpochLoss, trainEpochAcc, phaseOutsConcat,
        phaseTgtsConcat, phasePredsList, phaseLabelsList, hb]

theorem processPhase_val_ok {P : Type} (isInception profilerOn : Bool)
    (numClasses : ℕ) (env : Env P) (e : ℕ) (st st' : LoopState P)
    (h : processPhase isInception profilerOn numClasses env e Phase.val st =
      Except.ok st') :
    env.valDatasetSize ≠ 0 ∧ env.valBatches e ≠ [] ∧
      st' = valPhaseResult isInception profilerOn numClasses env e st := by
  by_cases hd : env.valDatasetSize = 0
  · simp [processPhase, phaseBatches, phaseDatasetSize, epochStats, hd] at h
  · by_cases hb : env.valBatches e = []
    · simp [processPhase, phaseBatches, phaseDatasetSize, epochStats, hd, hb,
        runPhase_eq, phasePredsList, npConcatenate] at h
    · refine ⟨hd, hb, ?_⟩
      simp only [processPhase, phaseBatches, phaseDatasetSize, epochStats,
        runPhase_eq, npConcatenate, hd, hb, if_false, if_neg hd,
        phasePredsList, phaseLabelsList, List.map_eq_nil_iff] at h
      simp only [Except.ok.injEq] at h
      subst h
      by_cases hlt : phaseRunningLoss isInception Phase.val env.criterion
          (env.valBatches e) / (env.valDatasetSize : ℚ) < st.bestLoss
      · simp [valPhaseResult, valEpochLoss, valEpochAcc, phaseOutsConcat,
          phaseTgtsConcat, phasePredsList, phaseLabelsList, hb, hlt]
      · simp [valPhaseResult, valEpochLoss, valEpochAcc, phaseOutsConcat,
          phaseTgtsConcat, phasePredsList, phaseLabelsList, hb, hlt]

theorem processPhase_train_run {P : Type} (isInception profilerOn : Bool)
    (numClasses : ℕ) (env : Env P) (e : ℕ) (st : LoopState P)
    (hd : env.trainDatasetSize ≠ 0) (hb : env.trainBatches e ≠ []) :
    processPhase isInception profilerOn numClasses env e Phase.train st =
      Except.ok (trainPhaseResult isInception profilerOn numClasses env e st) := by
  simp only [processPhase, phaseBatches, phaseDatasetSize, epochStats,
    runPhase_eq, npConcatenate, hd, hb, if_false, if_neg hd,
    phasePredsList, phaseLabelsList, List.map_eq_nil_iff]
  simp [trainPhaseResult, trainEpochLoss, trainEpochAcc, phaseOutsConcat,
    phaseTgtsConcat, phasePredsList, phaseLabelsList, hb]

theorem processPhase_train_err {P : Type} (isInception profilerOn : Bool)
    (numClasses : ℕ) (env : Env P) (e : ℕ) (st : LoopState P)
    (hd : env.trainDatasetSize = 0) :
    processPhase isInception profilerOn numClasses env e Phase.train st =
      Except.error "ZeroDivisionError" := by
  simp [processPhase, phaseBatches, phaseDatasetSize, epochStats, hd]

theorem processPhase_val_err {P : Type} (isInception profilerOn : Bool)
    (numClasses : ℕ) (env : Env P) (e : ℕ) (st : LoopState P)
    (hd : env.valDatasetSize = 0) :
    processPhase isInception profilerOn numClasses env e Phase.val st =
      Except.error "ZeroDivisionError" := by
  simp [processPhase, phaseBatches, phaseDatasetSize, epochStats, hd]

theorem processPhase_train_emptyBatches {P : Type} (isInception profilerOn : Bool)
    (numClasses : ℕ) (env : Env P) (e : ℕ) (st : LoopState P)
    (hd : env.trainDatasetSize ≠ 0) (hb : env.trainBatches e = []) :
    processPhase isInception profilerOn numClasses env e Phase.train st =
      Except.error "AttributeError: int object has no attribute double" := by
  simp [processPhase, phaseBatches, phaseDatasetSize, epochStats, runPhase_eq,
    phasePredsList, hd, hb]

theorem processPhase_val_emptyBatches {P : Type} (isInception profilerOn : Bool)
    (numClasses : ℕ) (env : Env P) (e : ℕ) (st : LoopState P)
    (hd : env.valDatasetSize ≠ 0) (hb : env.valBatches e = []) :
    processPhase isInception profilerOn numClasses env e Phase.val st =
      Except.error "AttributeError: int object has no attribute double" := by
  simp [processPhase, phaseBatches, phaseDatasetSize, epochStats, runPhase_eq,
    phasePredsList, hd, hb]

/-! ### Lemmas: characterizing one epoch and the epoch loop -/

theorem processEpoch_ok {P : Type} (isInception profilerOn : Bool)
    (numClasses : ℕ) (env : Env P) (e : ℕ) (st st' : LoopState P)
    (h : processEpoch isInception profilerOn numClasses env e st = Except.ok st') :
    st' = epochResult isInception profilerOn numClasses env e st := by
  cases htr : processPhase isInception profilerOn numClasses env e Phase.train st with
  | error msg => rw [processEpoch, htr] at h; cases h
  | ok st1 =>
    cases hv : processPhase isInception profilerOn numClasses env e Phase.val st1 with
    | error msg =>
      rw [processEpoch, htr] at h
      simp only [hv] at h
      cases h
    | ok st2 =>
      rw [processEpoch, htr] at h
      simp only [hv, Except.ok.injEq] at h
      obtain ⟨-, -, h1⟩ :=
        processPhase_train_ok isInception profilerOn numClasses env e st st1 htr
      obtain ⟨-, -, h2⟩ :=
        processPhase_val_ok isInception profilerOn numClasses env e st1 st2 hv
      subst h
      rw [epochResult, ← h1, ← h2]

theorem runEpochsAux_ok {P : Type} (isInception profilerOn : Bool)
    (numClasses : ℕ) (env : Env P) :
    ∀ (k start : ℕ) (st st' : LoopState P),
      runEpochsAux isInception profilerOn numClasses env start k st = Except.ok st' →
      st' = epochsResult isInception profilerOn numClasses env start k st := by
  intro k
  induction k with
  | zero =>
    intro start st st' h
    simp only [runEpochsAux, Except.ok.injEq] at h
    subst h
    simp [epochsResult]
  | succ k ih =>
    intro start st st' h
    rw [runEpochsAux] at h
    cases he : processEpoch isInception profilerOn numClasses env start st with
    | error msg => rw [he] at h; cases h
    | ok st1 =>
      rw [he] at h
      have h1 := processEpoch_ok isInception profilerOn numClasses env start st st1 he
      subst h1
      have h2 := ih (start + 1) _ st' h
      rw [h2, epochsResult, epochsResult, List.range'_succ, List.foldl_cons]

theorem train_model_ok {P : Type} (env : Env P) (E ncls : ℕ) (inc pr : Bool)
    (thr : ℚ) (r : TrainResult P)
    (h : train_model env E ncls inc pr thr = Except.ok r) :
    r = resultOfState (epochsResult inc pr ncls env 0 E (initState env)) := by
  cases hA : runEpochsAux inc pr ncls env 0 E (initState env) with
  | error msg => rw [train_model, hA] at h; cases h
  | ok st =>
    rw [train_model, hA] at h
    simp only [Except.ok.injEq] at h
    subst h
    rw [runEpochsAux_ok inc pr ncls env E 0 (initState env) st hA]
    rfl

/-! ### Lemmas: the best-checkpoint triple along the run -/

theorem epochResult_best {P : Type} (isInception profilerOn : Bool)
    (numClasses : ℕ) (env : Env P) (e : ℕ) (st : LoopState P) :
    bestOf (epochResult isInception profilerOn numClasses env e st) =
      updateBest (bestOf st) (valTriple isInception numClasses env e) := by
  by_cases hlt : valEpochLoss isInception env e < st.bestLoss
  · simp [epochResult, valPhaseResult, trainPhaseResult, bestOf, updateBest,
      valTriple, hlt]
  · simp [epochResult, valPhaseResult, trainPhaseResult, bestOf, updateBest,
      valTriple, hlt]

theorem epochsResult_best {P : Type} (isInception profilerOn : Bool)
    (numClasses : ℕ) (env : Env P) :
    ∀ (k start : ℕ) (st : LoopState P),
      bestOf (epochsResult isInception profilerOn numClasses env start k st) =
        trackBest (bestOf st)
          ((List.range' start k).map (valTriple isInception numClasses env)) := by
  intro k
  induction k with
  | zero => intro start st; simp [epochsResult, trackBest]
  | succ k ih =>
    intro start st
    rw [epochsResult, List.range'_succ, List.foldl_cons, ← epochsResult, ih]
    simp only [List.map_cons, trackBest, List.foldl_cons]
    rw [epochResult_best]

theorem trackBest_stay {P : Type} :
    ∀ (xs : List (ℚ × ℚ × P)) (init : ℚ × ℚ × P),
      (∀ x ∈ xs, ¬ x.1 < init.1) → trackBest init xs = init := by
  intro xs
  induction xs with
  | nil => intro init _; rfl
  | cons x xs ih =>
    intro init hall
    rw [trackBest, List.foldl_cons, ← trackBest]
    have hx : ¬ x.1 < init.1 := hall x (List.mem_cons_self x xs)
    rw [updateBest, if_neg hx]
    exact ih init (fun y hy => hall y (List.mem_cons_of_mem x hy))

theorem trackBest_first_min {P : Type} :
    ∀ (xs : List (ℚ × ℚ × P)) (init : ℚ × ℚ × P) (i : ℕ) (hi : i < xs.length),
      (xs.get ⟨i, hi⟩).1 < init.1 →
      (∀ (j : ℕ) (hj : j < xs.length), (xs.get ⟨i, hi⟩).1 ≤ (xs.get ⟨j, hj⟩).1) →
      (∀ (j : ℕ) (hj : j < i), (xs.get ⟨i, hi⟩).1 < (xs.get ⟨j, Nat.lt_trans hj hi⟩).1) →
      trackBest init xs = xs.get ⟨i, hi⟩ := by
  intro xs
  induction xs with
  | nil => intro init i hi; exact absurd hi (Nat.not_lt_zero i)
  | cons x xs ih =>
    intro init i hi hlt hmin hfirst
    rw [trackBest, List.foldl_cons, ← trackBest]
    cases i with
    | zero =>
      have hget : ((x :: xs).get ⟨0, hi⟩) = x := rfl
      rw [hget] at hlt ⊢
      rw [updateBest, if_pos hlt]
      apply trackBest_stay
      intro y hy
      obtain ⟨⟨j, hj⟩, rfl⟩ := List.mem_iff_get.mp hy
      have hm : x.1 ≤ (xs.get ⟨j, hj⟩).1 := by
        have := hmin (j + 1) (Nat.succ_lt_succ hj)
        rw [hget] at this
        simpa using this
      exact not_lt.mpr hm
    | succ i' =>
      have hi' : i' < xs.length := Nat.lt_of_succ_lt_succ hi
      have hget : ((x :: xs).get ⟨i' + 1, hi⟩) = xs.get ⟨i', hi'⟩ := rfl
      rw [hget] at hlt ⊢
      have hx : (xs.get ⟨i', hi'⟩).1 < x.1 := by
        have h0 := hfirst 0 (Nat.succ_pos i')
        rw [hget] at h0
        simpa using h0
      have hlt' : (xs.get ⟨i', hi'⟩).1 < (updateBest init x).1 := by
        rw [updateBest]
        by_cases hc : x.1 < init.1
        · rw [if_pos hc]; exact hx
        · rw [if_neg hc]; exact hlt
      refine ih (updateBest init x) i' hi' hlt' ?_ ?_
      · intro j hj
        have hm := hmin (j + 1) (Nat.succ_lt_succ hj)
        rw [hget] at hm
        simpa using hm
      · intro j hj
        have hf := hfirst (j + 1) (Nat.succ_lt_succ hj)
        rw [hget] at hf
        simpa using hf

/-! ### Lemmas: the histories along the run -/

theorem epochResult_valHist {P : Type} (isInception profilerOn : Bool)
    (numClasses : ℕ) (env : Env P) (e : ℕ) (st : LoopState P) :
    (epochResult isInception profilerOn numClasses env e st).valHist =
      ⟨st.valHist.acc ++ [valEpochAcc numClasses env e],
       st.valHist.loss ++ [valEpochLoss isInception env e],
       st.valHist.targets ++ [phaseTgtsConcat (env.valBatches e)],
       st.valHist.outputs ++ [phaseOutsConcat (env.valBatches e)]⟩ := by
  by_cases hlt : valEpochLoss isInception env e < st.bestLoss <;>
    simp [epochResult, valPhaseResult, trainPhaseResult, hlt]

theorem epochResult_trainHist {P : Type} (isInception profilerOn : Bool)
    (numClasses : ℕ) (env : Env P) (e : ℕ) (st : LoopState P) :
    (epochResult isInception profilerOn numClasses env e st).trainHist =
      ⟨st.trainHist.acc ++ [trainEpochAcc numClasses env e],
       st.trainHist.loss ++ [trainEpochLoss isInception env e],
       st.trainHist.targets ++ [phaseTgtsConcat (env.trainBatches e)],
       st.trainHist.outputs ++ [phaseOutsConcat (env.trainBatches e)]⟩ := by
  by_cases hlt : valEpochLoss isInception env e < st.bestLoss <;>
    simp [epochResult, valPhaseResult, trainPhaseResult, hlt]

theorem epochsResult_valHist {P : Type} (isInception profilerOn : Bool)
    (numClasses : ℕ) (env : Env P) :
    ∀ (k start : ℕ) (st : LoopState P),
      (epochsResult isInception profilerOn numClasses env start k st).valHist =
        ⟨st.valHist.acc ++ (List.range' start k).map (valEpochAcc numClasses env),
         st.valHist.loss ++ (List.range' start k).map (valEpochLoss isInception env),
         st.valHist.targets ++
           (List.range' start k).map (fun e => phaseTgtsConcat (env.valBatches e)),
         st.valHist.outputs ++
           (List.range' start k).map (fun e => phaseOutsConcat (env.valBatches e))⟩ := by
  intro k
  induction k with
  | zero => intro start st; simp [epochsResult]
  | succ k ih =>
    intro start st
    rw [epochsResult, List.range'_succ, List.foldl_cons, ← epochsResult, ih,
      epochResult_valHist]
    simp [List.range'_succ]

theorem epochsResult_trainHist {P : Type} (isInception profilerOn : Bool)
    (numClasses : ℕ) (env : Env P) :
    ∀ (k start : ℕ) (st : LoopState P),
      (epochsResult isInception profilerOn numClasses env start k st).trainHist =
        ⟨st.trainHist.acc ++ (List.range' start k).map (trainEpochAcc numClasses env),
         st.trainHist.loss ++ (List.range' start k).map (trainEpochLoss isInception env),
         st.trainHist.targets ++
           (List.range' start k).map (fun e => phaseTgtsConcat (env.trainBatches e)),
         st.trainHist.outputs ++
           (List.range' start k).map (fun e => phaseOutsConcat (env.trainBatches e))⟩ := by
  intro k
  induction k with
  | zero => intro start st; simp [epochsResult]
  | succ k ih =>
    intro start st
    rw [epochsResult, List.range'_succ, List.foldl_cons, ← epochsResult, ih,
      epochResult_trainHist]
    simp [List.range'_succ]

/-! ### Lemmas: lengths of the concatenated arrays -/

theorem phaseOutsConcat_length (bs : List Batch)
    (h : ∀ b ∈ bs, b.outputs.length = b.inputsSize) :
    (phaseOutsConcat bs).length = (bs.map (fun b => b.inputsSize)).sum := by
  rw [phaseOutsConcat, List.length_flatten, phasePredsList, List.map_map]
  congr 1
  apply List.map_congr_left
  intro b hb
  simp [derivePreds, maskLt, maskGe, h b hb]

theorem phaseTgtsConcat_length (bs : List Batch)
    (h : ∀ b ∈ bs, b.labels.length = b.inputsSize) :
    (phaseTgtsConcat bs).length = (bs.map (fun b => b.inputsSize)).sum := by
  rw [phaseTgtsConcat, List.length_flatten, phaseLabelsList, List.map_map]
  congr 1
  apply List.map_congr_left
  intro b hb
  simp [h b hb]

/-! ### Lemmas: bounding the running correct count -/

theorem processPhase_val_run {P : Type} (isInception profilerOn : Bool)
    (numClasses : ℕ) (env : Env P) (e : ℕ) (st : LoopState P)
    (hd : env.valDatasetSize ≠ 0) (hb : env.valBatches e ≠ []) :
    processPhase isInception profilerOn numClasses env e Phase.val st =
      Except.ok (valPhaseResult isInception profilerOn numClasses env e st) := by
  simp only [processPhase, phaseBatches, phaseDatasetSize, epochStats,
    runPhase_eq, npConcatenate, hd, hb, if_false, if_neg hd,
    phasePredsList, phaseLabelsList, List.map_eq_nil_iff]
  by_cases hlt : phaseRunningLoss isInception Phase.val env.criterion
      (env.valBatches e) / (env.valDatasetSize : ℚ) < st.bestLoss
  · simp [valPhaseResult, valEpochLoss, valEpochAcc, phaseOutsConcat,
      phaseTgtsConcat, phasePredsList, phaseLabelsList, hb, hlt]
  · simp [valPhaseResult, valEpochLoss, valEpochAcc, phaseOutsConcat,
      phaseTgtsConcat, phasePredsList, phaseLabelsList, hb, hlt]

theorem processEpoch_run {P : Type} (isInception profilerOn : Bool)
    (numClasses : ℕ) (env : Env P) (e : ℕ) (st : LoopState P)
    (hdt : env.trainDatasetSize ≠ 0) (hbt : env.trainBatches e ≠ [])
    (hdv : env.valDatasetSize ≠ 0) (hbv : env.valBatches e ≠ []) :
    processEpoch isInception profilerOn numClasses env e st =
      Except.ok (epochResult isInception profilerOn numClasses env e st) := by
  rw [processEpoch,
    processPhase_train_run isInception profilerOn numClasses env e st hdt hbt]
  simp only [processPhase_val_run isInception profilerOn numClasses env e _ hdv hbv]
  rfl

theorem runEpochsAux_run {P : Type} (isInception profilerOn : Bool)
    (numClasses : ℕ) (env : Env P)
    (hdt : env.trainDatasetSize ≠ 0) (hdv : env.valDatasetSize ≠ 0) :
    ∀ (k start : ℕ) (st : LoopState P),
      (∀ j, j < k → env.trainBatches (start + j) ≠ [] ∧ env.valBatches (start + j) ≠ []) →
      runEpochsAux isInception profilerOn numClasses env start k st =
        Except.ok (epochsResult isInception profilerOn numClasses env start k st) := by
  intro k
  induction k with
  | zero =>
    intro start st _
    rw [runEpochsAux]
    rfl
  | succ k ih =>
    intro start st hcond
    obtain ⟨hbt, hbv⟩ := by simpa using hcond 0 (Nat.succ_pos k)
    rw [runEpochsAux,
      processEpoch_run isInception profilerOn numClasses env start st hdt hbt hdv hbv]
    have hcond' : ∀ j, j < k →
        env.trainBatches (start + 1 + j) ≠ [] ∧ env.valBatches (start + 1 + j) ≠ [] := by
      intro j hj
      have := hcond (j + 1) (Nat.succ_lt_succ hj)
      rwa [show start + (j + 1) = start + 1 + j by omega] at this
    simp only [ih (start + 1) _ hcond']
    conv_rhs => rw [epochsResult, List.range'_succ, List.foldl_cons]
    rfl

theorem train_model_run {P : Type} (env : Env P) (E numClasses : ℕ)
    (isInception profilerOn : Bool) (threshold : ℚ)
    (hdt : env.trainDatasetSize ≠ 0) (hdv : env.valDatasetSize ≠ 0)
    (hcond : ∀ j, j < E → env.trainBatches j ≠ [] ∧ env.valBatches j ≠ []) :
    train_model env E numClasses isInception profilerOn threshold =
      Except.ok (resultOfState
        (epochsResult isInception profilerOn numClasses env 0 E (initState env))) := by
  rw [train_model, runEpochsAux_run isInception profilerOn numClasses env hdt hdv E 0
    (initState env) (by simpa using hcond)]
  rfl

/-- Final best triple when no validation epoch beats the 10000.0 sentinel. -/
theorem epochsResult_best_stay {P : Type} (isInception profilerOn : Bool)
    (numClasses : ℕ) (env : Env P) (E : ℕ)
    (hall : ∀ e, e < E → 10000 ≤ valEpochLoss isInception env e) :
    bestOf (epochsResult isInception profilerOn numClasses env 0 E (initState env)) =
      (10000, 0, env.initParams) := by
  rw [epochsResult_best]
  have hstay : trackBest (bestOf (initState env))
      ((List.range' 0 E).map (valTriple isInception numClasses env)) =
      bestOf (initState env) := by
    apply trackBest_stay
    intro x hx
    obtain ⟨e, he, rfl⟩ := List.mem_map.mp hx
    have he' : e < E := by
      have := (List.mem_range'_1.mp he).2
      omega
    have h10 := hall e he'
    simp only [valTriple, bestOf, initState]
    exact not_lt.mpr h10
  rw [hstay]
  rfl

theorem getD_map_range' {α : Type} (f : ℕ → α) (E e : ℕ) (d : α) (he : e < E) :
    (((List.range' 0 E).map f).getD e d) = f e := by
  rw [List.getD_eq_getElem?_getD, List.getElem?_map, List.getElem?_range' 0 1 he]
  simp

/-! ### The claims -/

/-- C2: the `threshold` parameter accepted by `train_model`'s signature is
never read: the whole result of a run — in particular every prediction
array in either history — is identical whatever threshold the caller
supplies, because the prediction-derivation step (lines 101-103) uses the
hardcoded cutoff 0.5. -/
theorem claim_C2 {P : Type} (env : Env P) (num_epochs num_classes : ℕ)
    (is_inception profiler : Bool) (t₁ t₂ : ℚ) :
    train_model env num_epochs num_classes is_inception profiler t₁ =
      train_model env num_epochs num_classes is_inception profiler t₂ := rfl

/-- C3: prediction derivation (the clone followed by the two masked
assignments of lines 101-103) maps each entry independently to 1 when the
entry is at least 0.5 and to 0 when it is below 0.5; in particular an entry
exactly equal to 0.5 yields prediction 1.  The raw output tensor is
unmodified: the masked assignments act on the clone, which the embedding
renders by leaving `outputs` untouched and building `derivePreds outputs`
as a new value. -/
theorem claim_C3 :
    (∀ outputs : Tensor2,
      derivePreds outputs =
        outputs.map (List.map (fun x => if (1 : ℚ)/2 ≤ x then 1 else 0))) ∧
    derivePreds [[(1 : ℚ)/2]] = [[1]] := by
  constructor
  · intro outputs
    rw [derivePreds, maskGe, maskLt, List.map_map]
    apply List.map_congr_left
    intro row _
    rw [Function.comp, List.map_map]
    apply List.map_congr_left
    intro x _
    by_cases h : (1 : ℚ)/2 ≤ x
    · norm_num [h]
    · norm_num [h, not_le.mp h]
  · norm_num [derivePreds, maskGe, maskLt]

/-- C4: with `is_inception` true in the train phase the model yields a
primary and an auxiliary output and the batch loss is
`criterion(primary, labels) + 0.4 * criterion(auxiliary, labels)`
(lines 78-89); with a criterion scoring the primary output 1.0 and the
auxiliary output 2.0 the loss is 1.8 = 9/5; in every other case the loss is
`criterion(output, labels)` on the single output (lines 90-98). -/
theorem claim_C4 :
    (∀ (criterion : Criterion) (b : Batch),
      batchLoss true Phase.train criterion b =
        criterion b.outputs b.labels +
          (2 : ℚ)/5 * criterion b.auxOutputs b.labels) ∧
    batchLoss true Phase.train c4crit c4batch = 9/5 ∧
    (∀ (is_inception : Bool) (phase : Phase) (criterion : Criterion) (b : Batch),
      ¬(is_inception = true ∧ phase = Phase.train) →
      batchLoss is_inception phase criterion b = criterion b.outputs b.labels) := by
  refine ⟨?_, ?_, ?_⟩
  · intro criterion b
    simp [batchLoss]
  · norm_num [batchLoss, c4crit, c4batch]
  · intro is_inception phase criterion b h
    rw [batchLoss, if_neg h]

/-- C4 witness: the non-inception branch applied to a concrete batch. -/
theorem claim_C4_witness :
    batchLoss false Phase.val c4critW c4batchW =
      c4critW c4batchW.outputs c4batchW.labels :=
  claim_C4.2.2 false Phase.val c4critW c4batchW (by decide)

/-- C5: after the batches of a phase complete, `epoch_loss` is the sum over
the batches of (scalar batch loss × batch size) divided by the dataset size,
and `epoch_acc` is the total element-wise match count divided by
(dataset size × num_classes) — lines 110-115 and 126-129.  The phase must
have processed at least one batch: until the first batch runs,
`running_corrects` is still the Python int 0 and line 127 would raise
instead of computing `epoch_acc`. -/
theorem claim_C5 (is_inception : Bool) (phase : Phase) (criterion : Criterion)
    (batches : List Batch) (datasetSize num_classes : ℕ)
    (hd : datasetSize ≠ 0) (hbs : batches ≠ []) :
    epochStats datasetSize num_classes
        (runPhase is_inception phase criterion batches) =
      Except.ok
        (((batches.map (fun b =>
            batchLoss is_inception phase criterion b * (b.inputsSize : ℚ))).sum) /
          (datasetSize : ℚ),
         ((batches.map (fun b =>
            countMatches (derivePreds b.outputs) b.labels)).sum : ℚ) /
          ((datasetSize * num_classes : ℕ) : ℚ)) := by
  rw [runPhase_eq, epochStats, if_neg hd,
    if_neg (by simpa [phasePredsList, List.map_eq_nil_iff] using hbs)]
  rfl

/-- C5 witness: the formulas evaluated on a concrete two-sample batch. -/
theorem claim_C5_witness :
    epochStats 2 2 (runPhase false Phase.train c5crit [c5batch]) =
      Except.ok
        ((([c5batch].map (fun b =>
            batchLoss false Phase.train c5crit b * (b.inputsSize : ℚ))).sum) /
          ((2 : ℕ) : ℚ),
         (([c5batch].map (fun b =>
            countMatches (derivePreds b.outputs) b.labels)).sum : ℚ) /
          ((2 * 2 : ℕ) : ℚ)) :=
  claim_C5 false Phase.train c5crit [c5batch] 2 2 (by decide) (by simp)

/-- C10: with `num_epochs = 0` the loop body never runs: the model keeps its
initial parameters (reloaded from the initial deep copy, line 176), the
profile object is `None` regardless of the profiler flag, all eight history
lists are empty, and the optimizer, scheduler and criterion are never
invoked (their invocation counters are 0). -/
theorem claim_C10 {P : Type} (env : Env P) (num_classes : ℕ)
    (is_inception profiler : Bool) (threshold : ℚ) :
    train_model env 0 num_classes is_inception profiler threshold =
      Except.ok
        { modelParams := env.initParams
          prof := none
          valHist := History.empty
          trainHist := History.empty
          bestLoss := 10000
          bestAcc := 0
          optimizerSteps := 0
          schedulerSteps := 0
          criterionCalls := 0 } := rfl

/-- C1 (amended): (a) after the validation phase of any epoch the new
`best_loss` is `min(best_loss before the epoch, validation epoch_loss)`, and
an epoch whose validation loss equals the current best does not touch the
checkpoint (the update of line 137 is strict `<`); (b) provided the
minimum validation loss of the run is strictly below the initial sentinel
`best_loss = 10000.0` (line 34), the returned model carries the parameters
deep-copied at the first epoch achieving that minimum.  The proviso in (b)
is forced by the sentinel: a run whose every validation loss is at least
10000.0 returns the initial parameters instead (see the counterexample and
C9). -/
theorem claim_C1 {P : Type} (is_inception profiler : Bool) (num_classes : ℕ)
    (env : Env P) :
    (∀ (e : ℕ) (st st' : LoopState P),
      processEpoch is_inception profiler num_classes env e st = Except.ok st' →
      st'.bestLoss = min st.bestLoss (valEpochLoss is_inception env e) ∧
      (valEpochLoss is_inception env e = st.bestLoss →
        st'.bestWts = st.bestWts ∧ st'.bestAcc = st.bestAcc)) ∧
    (∀ (E : ℕ) (threshold : ℚ) (r : TrainResult P) (i : ℕ),
      i < E →
      train_model env E num_classes is_inception profiler threshold = Except.ok r →
      valEpochLoss is_inception env i < 10000 →
      (∀ j, j < E → valEpochLoss is_inception env i ≤ valEpochLoss is_inception env j) →
      (∀ j, j < i → valEpochLoss is_inception env i < valEpochLoss is_inception env j) →
      r.modelParams = env.paramsAt i ∧
        r.bestLoss = valEpochLoss is_inception env i ∧
        r.bestAcc = valEpochAcc num_classes env i) := by
  constructor
  · intro e st st' h
    have h1 := processEpoch_ok is_inception profiler num_classes env e st st' h
    subst h1
    have hb := epochResult_best is_inception profiler num_classes env e st
    have hl := congrArg (fun t => t.1) hb
    have ha := congrArg (fun t => t.2.1) hb
    have hw := congrArg (fun t => t.2.2) hb
    simp only [bestOf] at hl ha hw
    by_cases hlt : valEpochLoss is_inception env e < st.bestLoss
    · constructor
      · rw [hl]
        simp [updateBest, valTriple, bestOf, hlt, min_eq_right (le_of_lt hlt)]
      · intro heq
        rw [heq] at hlt
        exact absurd hlt (lt_irrefl _)
    · constructor
      · rw [hl]
        simp [updateBest, valTriple, bestOf, hlt, min_eq_left (not_lt.mp hlt)]
      · intro heq
        constructor
        · rw [hw]
          simp [updateBest, valTriple, bestOf, hlt]
        · rw [ha]
          simp [updateBest, valTriple, bestOf, hlt]
  · intro E threshold r i hi hrun hsent hmin hfirst
    have hr := train_model_ok env E num_classes is_inception profiler threshold r hrun
    subst hr
    have hbest := epochsResult_best is_inception profiler num_classes env E 0 (initState env)
    have hlen : ((List.range' 0 E).map (valTriple is_inception num_classes env)).length = E := by
      simp
    have hget : ∀ (j : ℕ)
        (hj : j < ((List.range' 0 E).map (valTriple is_inception num_classes env)).length),
        ((List.range' 0 E).map (valTriple is_inception num_classes env)).get ⟨j, hj⟩ =
          valTriple is_inception num_classes env j := by
      intro j hj
      rw [List.get_eq_getElem, List.getElem_map, List.getElem_range']
      norm_num
    have h_i_lt : i < ((List.range' 0 E).map (valTriple is_inception num_classes env)).length := by
      rw [hlen]
      exact hi
    have hfm := trackBest_first_min
      ((List.range' 0 E).map (valTriple is_inception num_classes env))
      (bestOf (initState env)) i h_i_lt
      (by rw [hget]; simpa [valTriple, bestOf, initState] using hsent)
      (by intro j hj
          rw [hget, hget]
          have hjE : j < E := by rw [← hlen]; exact hj
          simpa [valTriple] using hmin j hjE)
      (by intro j hj
          rw [hget, hget]
          simpa [valTriple] using hfirst j hj)
    rw [hfm, hget] at hbest
    refine ⟨?_, ?_, ?_⟩
    · have := congrArg (fun t => t.2.2) hbest
      simpa [resultOfState, bestOf, valTriple] using this
    · have := congrArg (fun t => t.1) hbest
      simpa [resultOfState, bestOf, valTriple] using this
    · have := congrArg (fun t => t.2.1) hbest
      simpa [resultOfState, bestOf, valTriple] using this

/-- C1 counterexample: the claim as stated (without the sentinel proviso)
fails.  In this single-epoch run the only validation loss is 20000, so epoch
0 is the (first) epoch achieving the run's minimum validation loss, its
checkpoint snapshot is `paramsAt 0 = 5`, yet the returned model carries the
initial parameters 0: no checkpoint was taken because 20000 is not strictly
below the 10000.0 sentinel. -/
theorem claim_C1_counterexample :
    train_model c1cexEnv 1 1 false false ((1 : ℚ)/2) = Except.ok c1cexRes ∧
    valEpochLoss false c1cexEnv 0 = 20000 ∧
    c1cexRes.modelParams = c1cexEnv.initParams ∧
    c1cexEnv.initParams = 0 ∧ c1cexEnv.paramsAt 0 = 5 ∧
    c1cexRes.modelParams ≠ c1cexEnv.paramsAt 0 := by
  have hv : valEpochLoss false c1cexEnv 0 = 20000 := by
    norm_num [valEpochLoss, phaseRunningLoss, batchLoss, critHead, c1cexEnv]
  have hstay := epochsResult_best_stay false false 1 c1cexEnv 1
    (by intro e he
        interval_cases e
        rw [hv]
        norm_num)
  have hwts : c1cexRes.modelParams = 0 := by
    have := congrArg (fun t => t.2.2) hstay
    simpa [c1cexRes, resultOfState, bestOf, c1cexEnv] using this
  refine ⟨?_, hv, ?_, rfl, rfl, ?_⟩
  · exact train_model_run c1cexEnv 1 1 false false ((1 : ℚ)/2)
      (by norm_num [c1cexEnv]) (by norm_num [c1cexEnv])
      (by intro j hj; exact ⟨by simp [c1cexEnv], by simp [c1cexEnv]⟩)
  · rw [hwts]
    rfl
  · rw [hwts]
    norm_num [c1cexEnv]

/-- C1 witness: the spec scenario of validation losses [0.9, 0.7, 0.8] over
3 epochs; the minimum 0.7 is reached first (and only) at epoch index 1, and
the run returns the parameters deep-copied there together with best loss
0.7. -/
theorem claim_C1_witness :
    c1res.modelParams = c1env.paramsAt 1 ∧
    c1res.bestLoss = valEpochLoss false c1env 1 ∧
    c1res.bestAcc = valEpochAcc 1 c1env 1 := by
  have h0 : valEpochLoss false c1env 0 = 9/10 := by
    norm_num [valEpochLoss, phaseRunningLoss, batchLoss, critHead, c1env]
  have h1 : valEpochLoss false c1env 1 = 7/10 := by
    norm_num [valEpochLoss, phaseRunningLoss, batchLoss, critHead, c1env]
  have h2 : valEpochLoss false c1env 2 = 4/5 := by
    norm_num [valEpochLoss, phaseRunningLoss, batchLoss, critHead, c1env]
  have hrun : train_model c1env 3 1 false false ((1 : ℚ)/2) = Except.ok c1res :=
    train_model_run c1env 3 1 false false ((1 : ℚ)/2)
      (by norm_num [c1env]) (by norm_num [c1env])
      (by intro j hj; exact ⟨by simp [c1env], by simp [c1env]⟩)
  exact (claim_C1 false false 1 c1env).2 3 ((1 : ℚ)/2) c1res 1 (by norm_num) hrun
    (by rw [h1]; norm_num)
    (by intro j hj
        interval_cases j
        · rw [h1, h0]; norm_num
        · rw [h1]
        · rw [h1, h2]; norm_num)
    (by intro j hj
        interval_cases j
        rw [h1, h0]
        norm_num)

/-- C7: on a successful run of `E` epochs, each of the eight history lists
receives exactly one entry per epoch (all have length `E`), and — when the
model outputs and labels have first dimension equal to the batch size — the
concatenated prediction and label arrays recorded for epoch `e` have first
dimension equal to the sum of the sizes of the batches of that phase in that
epoch. -/
theorem claim_C7 {P : Type} (env : Env P) (E num_classes : ℕ)
    (is_inception profiler : Bool) (threshold : ℚ) (r : TrainResult P)
    (hrun : train_model env E num_classes is_inception profiler threshold = Except.ok r)
    (hshape : ∀ e, e < E →
      (∀ b ∈ env.valBatches e,
        b.outputs.length = b.inputsSize ∧ b.labels.length = b.inputsSize) ∧
      (∀ b ∈ env.trainBatches e,
        b.outputs.length = b.inputsSize ∧ b.labels.length = b.inputsSize)) :
    (r.valHist.acc.length = E ∧ r.valHist.loss.length = E ∧
     r.valHist.outputs.length = E ∧ r.valHist.targets.length = E) ∧
    (r.trainHist.acc.length = E ∧ r.trainHist.loss.length = E ∧
     r.trainHist.outputs.length = E ∧ r.trainHist.targets.length = E) ∧
    (∀ e, e < E →
      (r.valHist.outputs.getD e []).length =
        ((env.valBatches e).map (fun b => b.inputsSize)).sum ∧
      (r.valHist.targets.getD e []).length =
        ((env.valBatches e).map (fun b => b.inputsSize)).sum ∧
      (r.trainHist.outputs.getD e []).length =
        ((env.trainBatches e).map (fun b => b.inputsSize)).sum ∧
      (r.trainHist.targets.getD e []).length =
        ((env.trainBatches e).map (fun b => b.inputsSize)).sum) := by
  have hr := train_model_ok env E num_classes is_inception profiler threshold r hrun
  subst hr
  have hv' : (epochsResult is_inception profiler num_classes env 0 E (initState env)).valHist =
      ⟨(List.range' 0 E).map (valEpochAcc num_classes env),
       (List.range' 0 E).map (valEpochLoss is_inception env),
       (List.range' 0 E).map (fun e => phaseTgtsConcat (env.valBatches e)),
       (List.range' 0 E).map (fun e => phaseOutsConcat (env.valBatches e))⟩ := by
    rw [epochsResult_valHist]
    simp [initState, History.empty]
  have ht' : (epochsResult is_inception profiler num_classes env 0 E (initState env)).trainHist =
      ⟨(List.range' 0 E).map (trainEpochAcc num_classes env),
       (List.range' 0 E).map (trainEpochLoss is_inception env),
       (List.range' 0 E).map (fun e => phaseTgtsConcat (env.trainBatches e)),
       (List.range' 0 E).map (fun e => phaseOutsConcat (env.trainBatches e))⟩ := by
    rw [epochsResult_trainHist]
    simp [initState, History.empty]
  simp only [resultOfState, hv', ht']
  refine ⟨⟨by simp, by simp, by simp, by simp⟩, ⟨by simp, by simp, by simp, by simp⟩, ?_⟩
  intro e he
  rw [getD_map_range' _ E e [] he, getD_map_range' _ E e [] he,
    getD_map_range' _ E e [] he, getD_map_range' _ E e [] he]
  exact ⟨phaseOutsConcat_length _ (fun b hb => ((hshape e he).1 b hb).1),
         phaseTgtsConcat_length _ (fun b hb => ((hshape e he).1 b hb).2),
         phaseOutsConcat_length _ (fun b hb => ((hshape e he).2 b hb).1),
         phaseTgtsConcat_length _ (fun b hb => ((hshape e he).2 b hb).2)⟩

/-- C7 witness: the one-epoch run on two-sample batches; the epoch-0
validation prediction array has first dimension 2, the sum of the batch
sizes. -/
theorem claim_C7_witness :
    (c7res.valHist.outputs.getD 0 []).length =
      ((c7env.valBatches 0).map (fun b => b.inputsSize)).sum := by
  have hrun : train_model c7env 1 1 false false ((1 : ℚ)/2) = Except.ok c7res :=
    train_model_run c7env 1 1 false false ((1 : ℚ)/2)
      (by norm_num [c7env]) (by norm_num [c7env])
      (by intro j hj; exact ⟨by simp [c7env], by simp [c7env]⟩)
  have h := claim_C7 c7env 1 1 false false ((1 : ℚ)/2) c7res hrun
    (by intro e he
        interval_cases e
        refine ⟨?_, ?_⟩ <;>
          (intro b hb
           simp only [c7env, List.mem_singleton] at hb
           subst hb
           exact ⟨rfl, rfl⟩))
  exact (h.2.2 0 (by norm_num)).1

/-- C8 (amended): `train_model` performs no error handling, so these
failures abort the run and propagate to the caller unmodified, with no retry
or recovery.  When a phase's dataset is empty
(`len(dataloaders[phase].dataset) == 0`) the float division
`running_loss / len(...)` on line 126 raises `ZeroDivisionError` — for the
training phase unconditionally, for the validation phase once the first
training phase completes, and in particular for a loader that yields zero
batches while reporting a dataset size consistent with them (the sum of
their sizes, hence 0).  When a loader instead yields zero batches over a
NONEMPTY dataset (a drop_last-style run), the division completes
(`0.0 / n`) and the run aborts just after, on line 127, where
`running_corrects` is still the Python int 0 and `.double()` raises an
`AttributeError` — an unhandled failure still, but not the division. -/
theorem claim_C8 {P : Type} (env : Env P) (E num_classes : ℕ)
    (is_inception profiler : Bool) (threshold : ℚ) (hE : 1 ≤ E) :
    (env.trainDatasetSize = 0 →
      train_model env E num_classes is_inception profiler threshold =
        Except.error "ZeroDivisionError") ∧
    (env.trainDatasetSize ≠ 0 → env.trainBatches 0 ≠ [] → env.valDatasetSize = 0 →
      train_model env E num_classes is_inception profiler threshold =
        Except.error "ZeroDivisionError") ∧
    (env.trainBatches 0 = [] →
      env.trainDatasetSize = ((env.trainBatches 0).map (fun b => b.inputsSize)).sum →
      train_model env E num_classes is_inception profiler threshold =
        Except.error "ZeroDivisionError") ∧
    (env.trainDatasetSize ≠ 0 → env.trainBatches 0 = [] →
      train_model env E num_classes is_inception profiler threshold =
        Except.error "AttributeError: int object has no attribute double") ∧
    (env.trainDatasetSize ≠ 0 → env.trainBatches 0 ≠ [] →
      env.valDatasetSize ≠ 0 → env.valBatches 0 = [] →
      train_model env E num_classes is_inception profiler threshold =
        Except.error "AttributeError: int object has no attribute double") := by
  obtain ⟨k, rfl⟩ : ∃ k, E = k + 1 := ⟨E - 1, by omega⟩
  refine ⟨?_, ?_, ?_, ?_, ?_⟩
  · intro hd
    rw [train_model, runEpochsAux, processEpoch,
      processPhase_train_err is_inception profiler num_classes env 0 (initState env) hd]
  · intro hdt hbt hdv
    rw [train_model, runEpochsAux, processEpoch,
      processPhase_train_run is_inception profiler num_classes env 0 (initState env) hdt hbt]
    simp only [processPhase_val_err is_inception profiler num_classes env 0
      (trainPhaseResult is_inception profiler num_classes env 0 (initState env)) hdv]
  · intro hb hs
    have hd : env.trainDatasetSize = 0 := by
      rw [hs, hb]
      rfl
    rw [train_model, runEpochsAux, processEpoch,
      processPhase_train_err is_inception profiler num_classes env 0 (initState env) hd]
  · intro hdt hbt
    rw [train_model, runEpochsAux, processEpoch,
      processPhase_train_emptyBatches is_inception profiler num_classes env 0
        (initState env) hdt hbt]
  · intro hdt hbt hdv hbv
    rw [train_model, runEpochsAux, processEpoch,
      processPhase_train_run is_inception profiler num_classes env 0 (initState env) hdt hbt]
    simp only [processPhase_val_emptyBatches is_inception profiler num_classes env 0
      (trainPhaseResult is_inception profiler num_classes env 0 (initState env)) hdv hbv]

/-- C8 counterexample: the claim as stated attributes the failure of every
zero-batch and/or empty-dataset run to the division by the dataset size, but
in a realizable drop_last-style run — the train loader yields zero batches
while its dataset reports 3 samples — the division `0.0 / 3` on line 126
completes, and the run instead aborts at line 127 with an `AttributeError`
(`running_corrects` is still the int 0), a different unhandled exception. -/
theorem claim_C8_counterexample :
    c8cexEnv.trainDatasetSize = 3 ∧
    c8cexEnv.trainBatches 0 = [] ∧
    train_model c8cexEnv 1 1 false false ((1 : ℚ)/2) =
      Except.error "AttributeError: int object has no attribute double" ∧
    "AttributeError: int object has no attribute double" ≠ "ZeroDivisionError" := by
  refine ⟨rfl, rfl, ?_, by decide⟩
  rw [train_model, runEpochsAux, processEpoch,
    processPhase_train_emptyBatches false false 1 c8cexEnv 0 (initState c8cexEnv)
      (by norm_num [c8cexEnv]) rfl]

/-- C8 witness: the empty environment aborts with the division error. -/
theorem claim_C8_witness :
    train_model c8env 1 1 false false ((1 : ℚ)/2) =
      Except.error "ZeroDivisionError" :=
  (claim_C8 c8env 1 1 false false ((1 : ℚ)/2) (by norm_num)).1 rfl

/-- C9: `best_loss` starts at the finite sentinel 10000.0, not at infinity
(line 34).  On a successful run in which every validation `epoch_loss` is at
least 10000.0, the strict comparison of line 137 never fires: no checkpoint
is taken, `train_model` returns the model restored to its initial parameters
(line 176), and the reported best loss and best accuracy are the initial
10000.0 and 0.0 — even though some epoch achieved the run's minimum
validation loss. -/
theorem claim_C9 {P : Type} (env : Env P) (E num_classes : ℕ)
    (is_inception profiler : Bool) (threshold : ℚ) (r : TrainResult P)
    (hrun : train_model env E num_classes is_inception profiler threshold = Except.ok r)
    (hall : ∀ e, e < E → 10000 ≤ valEpochLoss is_inception env e) :
    r.modelParams = env.initParams ∧ r.bestLoss = 10000 ∧ r.bestAcc = 0 := by
  have hr := train_model_ok env E num_classes is_inception profiler threshold r hrun
  subst hr
  have hb := epochsResult_best_stay is_inception profiler num_classes env E hall
  refine ⟨?_, ?_, ?_⟩
  · have := congrArg (fun t => t.2.2) hb
    simpa [resultOfState, bestOf] using this
  · have := congrArg (fun t => t.1) hb
    simpa [resultOfState, bestOf] using this
  · have := congrArg (fun t => t.2.1) hb
    simpa [resultOfState, bestOf] using this

/-- C9 witness: a single-epoch run whose only validation loss is 20000;
the run returns the initial parameters 3 with reported best loss 10000 and
best accuracy 0. -/
theorem claim_C9_witness :
    c9res.modelParams = c9env.initParams ∧ c9res.bestLoss = 10000 ∧
      c9res.bestAcc = 0 := by
  have hrun : train_model c9env 1 1 false false ((1 : ℚ)/2) = Except.ok c9res :=
    train_model_run c9env 1 1 false false ((1 : ℚ)/2)
      (by norm_num [c9env]) (by norm_num [c9env])
      (by intro j hj; exact ⟨by simp [c9env], by simp [c9env]⟩)
  exact claim_C9 c9env 1 1 false false ((1 : ℚ)/2) c9res hrun
    (by intro e he
        interval_cases e
        have hv : valEpochLoss false c9env 0 = 20000 := by
          norm_num [valEpochLoss, phaseRunningLoss, batchLoss, critHead, c9env]
        rw [hv]
        norm_num)

end MultilabelTrain
